import Mathlib

/-!
Verification of the BBS-fitment chat route handler
(`src/app/api/chat/route.ts`).

The handler is shallowly embedded: JavaScript strings become Lean `String`,
`JSON.parse` / `JSON.stringify` are modelled by an executable JSON value
type with a fueled recursive-descent reader and a printer, and the `POST`
handler becomes a pure function from the parsed request body and the
outcome of the external vector-store search to a record of the observable
effects (whether the search was called and with which query, which
generation call was issued, and the per-request trusted URL list).

String primitives (`toLowerCase`, `trim`, `includes`, `startsWith`,
`match` with the URL regex) are modelled on the underlying character
lists with JavaScript semantics; Unicode-only behaviour of
`toLowerCase` outside ASCII is out of scope, as every needle the handler
uses is ASCII.
-/

namespace BBSFitment

/-- JavaScript whitespace as used by `String.prototype.trim` and the regex
class `\s`, restricted to the ASCII characters that can occur here. -/
def isJsSpace (c : Char) : Bool :=
  c = ' ' || c = '\t' || c = '\n' || c = '\r'

/-- Model of `String.prototype.trim`. -/
def strTrim (s : String) : String :=
  String.mk (((s.data.dropWhile isJsSpace).reverse.dropWhile isJsSpace).reverse)

/-- Model of `String.prototype.toLowerCase` (ASCII range). -/
def strToLower (s : String) : String :=
  String.mk (s.data.map Char.toLower)

/-- Whether `needle` occurs as a contiguous run inside `hay`:
model of `Array/String.prototype.includes` on character lists. -/
def listContainsSub (hay needle : List Char) : Bool :=
  match hay with
  | [] => needle.isEmpty
  | _ :: t => (needle.isPrefixOf hay) || listContainsSub t needle

/-- Model of `String.prototype.includes`. -/
def strIncludes (hay needle : String) : Bool :=
  listContainsSub hay.data needle.data

/-- Model of `String.prototype.startsWith`. -/
def strStartsWith (s p : String) : Bool :=
  p.data.isPrefixOf s.data

/-- A JSON value. Numeric literals are kept as their source text: the
handler never computes with numbers, so no floating-point semantics is
needed. -/
inductive Json where
  | null
  | bool (b : Bool)
  | num (lit : String)
  | str (s : String)
  | arr (items : List Json)
  | obj (fields : List (String × Json))
deriving Repr

/-- Field lookup on an object, as JavaScript property access on a value
produced by `JSON.parse`: with a duplicated key the last occurrence wins;
any non-object value has no such property. -/
def getFieldIn (fs : List (String × Json)) (key : String) : Option Json :=
  match fs with
  | [] => none
  | (k, v) :: rest =>
    match getFieldIn rest key with
    | some w => some w
    | none => if k = key then some v else none

/-- `j.key` for a parsed JSON value `j`. -/
def Json.getField (j : Json) (key : String) : Option Json :=
  match j with
  | .obj fs => getFieldIn fs key
  | _ => none

/-- One hexadecimal digit for `JSON.stringify` escapes. -/
def hexDigit (n : Nat) : String :=
  String.singleton (if n < 10 then Char.ofNat (48 + n) else Char.ofNat (87 + n))

/-- Escaping of one character inside a JSON string literal
(`JSON.stringify` semantics). -/
def jsonEscapeChar (c : Char) : String :=
  if c = '"' then "\\\""
  else if c = '\\' then "\\\\"
  else if c = '\n' then "\\n"
  else if c = '\r' then "\\r"
  else if c = '\t' then "\\t"
  else if c = Char.ofNat 8 then "\\b"
  else if c = Char.ofNat 12 then "\\f"
  else if c.toNat < 32 then "\\u00" ++ hexDigit (c.toNat / 16) ++ hexDigit (c.toNat % 16)
  else String.singleton c

/-- A JSON string literal with quotes, `JSON.stringify` style. -/
def jsonQuote (s : String) : String :=
  "\"" ++ String.join (s.data.map jsonEscapeChar) ++ "\""

mutual

/-- Model of `JSON.stringify` on JSON-representable values. -/
def jsonStringify : Json → String
  | .null => "null"
  | .bool true => "true"
  | .bool false => "false"
  | .num lit => lit
  | .str s => jsonQuote s
  | .arr items => "[" ++ stringifyItems items ++ "]"
  | .obj fields => "\x7b" ++ stringifyFields fields ++ "\x7d"

/-- Comma-separated array elements. -/
def stringifyItems : List Json → String
  | [] => ""
  | [x] => jsonStringify x
  | x :: y :: rest => jsonStringify x ++ "," ++ stringifyItems (y :: rest)

/-- Comma-separated object members. -/
def stringifyFields : List (String × Json) → String
  | [] => ""
  | [(k, v)] => jsonQuote k ++ ":" ++ jsonStringify v
  | (k, v) :: f :: rest => jsonQuote k ++ ":" ++ jsonStringify v ++ "," ++ stringifyFields (f :: rest)

end

/-- JSON insignificant whitespace, skipped between tokens. -/
def skipWs (cs : List Char) : List Char :=
  match cs with
  | c :: rest => if c = ' ' || c = '\n' || c = '\t' || c = '\r' then skipWs rest else c :: rest
  | [] => []

/-- The value of a hexadecimal digit, if it is one. -/
def hexVal (c : Char) : Option Nat :=
  if '0' ≤ c && c ≤ '9' then some (c.toNat - 48)
  else if 'a' ≤ c && c ≤ 'f' then some (c.toNat - 87)
  else if 'A' ≤ c && c ≤ 'F' then some (c.toNat - 55)
  else none

/-- Reads the body of a JSON string literal after its opening quote, up to
and past the closing quote, decoding escapes: `(decoded characters, rest)`. -/
def readStringBody (fuel : Nat) (cs : List Char) : Option (List Char × List Char) :=
  match fuel, cs with
  | 0, _ => none
  | _ + 1, [] => none
  | f + 1, c :: rest =>
    if c = '"' then some ([], rest)
    else if c = '\\' then
      match rest with
      | [] => none
      | e :: rest2 =>
        let dec : Option (Char × List Char) :=
          if e = '"' then some ('"', rest2)
          else if e = '\\' then some ('\\', rest2)
          else if e = '/' then some ('/', rest2)
          else if e = 'b' then some (Char.ofNat 8, rest2)
          else if e = 'f' then some (Char.ofNat 12, rest2)
          else if e = 'n' then some ('\n', rest2)
          else if e = 'r' then some ('\r', rest2)
          else if e = 't' then some ('\t', rest2)
          else if e = 'u' then
            match rest2 with
            | h1 :: h2 :: h3 :: h4 :: rest3 =>
              match hexVal h1, hexVal h2, hexVal h3, hexVal h4 with
              | some a, some b2, some c2, some d =>
                some (Char.ofNat (((a * 16 + b2) * 16 + c2) * 16 + d), rest3)
              | _, _, _, _ => none
            | _ => none
          else none
        match dec with
        | some (ch, rest3) => (readStringBody f rest3).map (fun p => (ch :: p.1, p.2))
        | none => none
    else (readStringBody f rest).map (fun p => (c :: p.1, p.2))

/-- The longest leading run of decimal digits. -/
def readDigits (cs : List Char) : List Char × List Char :=
  match cs with
  | c :: rest =>
    if '0' ≤ c && c ≤ '9' then
      let p := readDigits rest
      (c :: p.1, p.2)
    else ([], cs)
  | [] => ([], [])

/-- Reads a JSON numeric literal (sign, integer part without leading
zeros, optional fraction, optional exponent): `(literal text, rest)`. -/
def readNumber (cs : List Char) : Option (List Char × List Char) :=
  let (sign, cs1) :=
    match cs with
    | '-' :: rest => (['-'], rest)
    | _ => (([] : List Char), cs)
  match cs1 with
  | [] => none
  | c :: rest =>
    if c = '0' then some (sign ++ ['0'], rest)
    else if '1' ≤ c && c ≤ '9' then
      let p := readDigits rest
      some (sign ++ c :: p.1, p.2)
    else none

/-- Appends an optional fraction part to a numeric literal. -/
def readFrac (lit : List Char) (cs : List Char) : Option (List Char × List Char) :=
  match cs with
  | '.' :: rest =>
    match readDigits rest with
    | ([], _) => none
    | (ds, rest2) => some (lit ++ '.' :: ds, rest2)
  | _ => some (lit, cs)

/-- Appends an optional exponent part to a numeric literal. -/
def readExp (lit : List Char) (cs : List Char) : Option (List Char × List Char) :=
  match cs with
  | e :: rest =>
    if e = 'e' || e = 'E' then
      let (sgn, rest2) :=
        match rest with
        | '+' :: r => (['+'], r)
        | '-' :: r => (['-'], r)
        | _ => (([] : List Char), rest)
      match readDigits rest2 with
      | ([], _) => none
      | (ds, rest3) => some (lit ++ e :: sgn ++ ds, rest3)
    else some (lit, cs)
  | [] => some (lit, cs)

/-- A full JSON numeric literal. -/
def readNumeral (cs : List Char) : Option (List Char × List Char) :=
  match readNumber cs with
  | none => none
  | some (lit, rest) =>
    match readFrac lit rest with
    | none => none
    | some (lit2, rest2) => readExp lit2 rest2

mutual

/-- Reads one JSON value (fueled recursive descent): `(value, rest)`. -/
def readValue (fuel : Nat) (cs : List Char) : Option (Json × List Char) :=
  match fuel with
  | 0 => none
  | f + 1 =>
    match skipWs cs with
    | [] => none
    | c :: rest =>
      if c = '"' then (readStringBody f rest).map (fun p => (.str (String.mk p.1), p.2))
      else if c = '[' then
        match skipWs rest with
        | ']' :: r => some (.arr [], r)
        | other => (readItems f other).map (fun p => (.arr p.1, p.2))
      else if c = '{' then
        match skipWs rest with
        | '}' :: r => some (.obj [], r)
        | other => (readFields f other).map (fun p => (.obj p.1, p.2))
      else
        match c :: rest with
        | 't' :: 'r' :: 'u' :: 'e' :: r => some (.bool true, r)
        | 'f' :: 'a' :: 'l' :: 's' :: 'e' :: r => some (.bool false, r)
        | 'n' :: 'u' :: 'l' :: 'l' :: r => some (.null, r)
        | other => (readNumeral other).map (fun p => (.num (String.mk p.1), p.2))

/-- Reads the elements of a non-empty array up to and past `]`. -/
def readItems (fuel : Nat) (cs : List Char) : Option (List Json × List Char) :=
  match fuel with
  | 0 => none
  | f + 1 =>
    match readValue f cs with
    | none => none
    | some (v, rest) =>
      match skipWs rest with
      | ',' :: rest2 => (readItems f rest2).map (fun p => (v :: p.1, p.2))
      | ']' :: rest2 => some ([v], rest2)
      | _ => none

/-- Reads the members of a non-empty object up to and past the closing
brace. -/
def readFields (fuel : Nat) (cs : List Char) : Option (List (String × Json) × List Char) :=
  match fuel with
  | 0 => none
  | f + 1 =>
    match skipWs cs with
    | '"' :: rest =>
      match readStringBody f rest with
      | none => none
      | some (key, rest2) =>
        match skipWs rest2 with
        | ':' :: rest3 =>
          match readValue f rest3 with
          | none => none
          | some (v, rest4) =>
            match skipWs rest4 with
            | ',' :: rest5 => (readFields f rest5).map (fun p => ((String.mk key, v) :: p.1, p.2))
            | '}' :: rest5 => some ([(String.mk key, v)], rest5)
            | _ => none
        | _ => none
    | _ => none

end

/-- Model of `JSON.parse`: the whole input must read as one value. -/
def jsonParse (s : String) : Option Json :=
  match readValue (2 * s.data.length + 4) s.data with
  | some (v, rest) => if skipWs rest = [] then some v else none
  | none => none

/-! ## The URL audit (`validateAndFilterUrls`, route.ts lines 13-35) -/

/-- A character the URL regex `[^\s)]` accepts. -/
def isUrlChar (c : Char) : Bool :=
  !(isJsSpace c || c = ')')

/-- One attempt of the regex `https?:\/\/[^\s)]+` anchored at the start of
`cs`: the matched characters and the remainder, if it matches here. -/
def urlMatchAt (cs : List Char) : Option (List Char × List Char) :=
  if "https://".data.isPrefixOf cs then
    match (cs.drop 8).takeWhile isUrlChar with
    | [] => none
    | body => some ("https://".data ++ body, cs.drop (8 + body.length))
  else if "http://".data.isPrefixOf cs then
    match (cs.drop 7).takeWhile isUrlChar with
    | [] => none
    | body => some ("http://".data ++ body, cs.drop (7 + body.length))
  else none

/-- The global scan of `text.match(/https?:\/\/[^\s)]+/g)`: leftmost
matches, resuming after each match. -/
def scanUrls (fuel : Nat) (cs : List Char) : List String :=
  match fuel, cs with
  | 0, _ => []
  | _ + 1, [] => []
  | f + 1, c :: rest =>
    match urlMatchAt (c :: rest) with
    | some (m, rest2) => String.mk m :: scanUrls f rest2
    | none => scanUrls f rest

/-- All URL-shaped substrings of `text`, in order. -/
def foundUrlsIn (text : String) : List String :=
  scanUrls text.data.length text.data

/-- Whether `url` is accepted against the trusted list: equal to some
entry up to ASCII case, or extending some entry as a prefix
(route.ts lines 22-26). -/
def isValidUrl (validUrls : List String) (url : String) : Bool :=
  validUrls.any (fun validUrl =>
    strToLower validUrl = strToLower url || strStartsWith url validUrl)

/-- What `validateAndFilterUrls` produces: the text it returns and the
URLs it warns about (`console.warn` lines 29-30). -/
structure UrlAudit where
  text : String
  warnedUrls : List String
deriving DecidableEq, Repr

/-- Model of `validateAndFilterUrls` (route.ts lines 13-35). The code
binds `filteredText` to `text` and never reassigns it; each found URL
containing `"BBSwheels.com"` that fails the trusted-list check is only
warned about. -/
def validateAndFilterUrls (text : String) (validUrls : List String) : UrlAudit :=
  let foundUrls := foundUrlsIn text
  let filteredText := text
  let warned := foundUrls.filter (fun url =>
    strIncludes url "BBSwheels.com" && !(isValidUrl validUrls url))
  { text := filteredText, warnedUrls := warned }

/-! ## Vector-store search results (route.ts lines 264-322) -/

/-- The `content` field of a search result: a string, or any other
JSON-representable value (the OpenAI API returns an array of content
parts), which the handler serialises. -/
inductive ResultContent where
  | str (s : String)
  | other (j : Json)

/-- A vector-store search result: its content and the two file-name
attributes the handler reads from `metadata` (an absent attribute, or
absent metadata altogether, is `none`). -/
structure SearchResult where
  content : ResultContent
  file_name : Option String
  filename : Option String

/-- `typeof result.content === "string" ? result.content :
JSON.stringify(result.content)` (route.ts lines 266-269 and 293-296). -/
def contentString (c : ResultContent) : String :=
  match c with
  | .str s => s
  | .other j => jsonStringify j

/-- JavaScript `a || b` on an optional string: `undefined` and `""` are
falsy. -/
def jsOrElse (a : Option String) (b : String) : String :=
  match a with
  | some s => if s = "" then b else s
  | none => b

/-- `metadata.file_name || metadata.filename || ""` (route.ts line 300). -/
def fileNameOf (r : SearchResult) : String :=
  jsOrElse r.file_name (jsOrElse r.filename "")

/-- `fileName.toLowerCase().includes("BBS_wheels.json")`
(route.ts line 302). -/
def isPrimarySource (r : SearchResult) : Bool :=
  strIncludes (strToLower (fileNameOf r)) "BBS_wheels.json"

/-- The two push loops filling `BBSWheelsData` and `otherData`
(route.ts lines 289-307). -/
def partitionResults (rs : List SearchResult) : List String × List String :=
  rs.foldl (fun acc r =>
    let cs := contentString r.content
    if isPrimarySource r then (acc.1 ++ [cs], acc.2) else (acc.1, acc.2 ++ [cs]))
    ([], [])

/-- `allData.join("\n\n---\n\n")` over `[...BBSWheelsData, ...otherData]`
(route.ts lines 310-311). -/
def contextTextOf (rs : List SearchResult) : String :=
  String.intercalate "\n\n---\n\n" ((partitionResults rs).1 ++ (partitionResults rs).2)

/-- The URLs one parsed value contributes to `validCollectionUrls`: the
value's own truthy `collection_url`, then, when the value is an array,
each element's truthy `collection_url` (route.ts lines 272-282). The
handler's annotations type `collection_url` as `string`, and JavaScript
truthiness drops the empty string. -/
def pushIfUrl (v : Option Json) : List String :=
  match v with
  | some (.str s) => if s = "" then [] else [s]
  | _ => []

/-- URLs contributed by one successfully parsed content value. -/
def urlsOfParsed (j : Json) : List String :=
  pushIfUrl (j.getField "collection_url") ++
    (match j with
     | .arr items => (items.map (fun it => pushIfUrl (it.getField "collection_url"))).flatten
     | _ => [])

/-- URLs contributed by one search result: nothing when its content does
not parse (the empty `catch` of route.ts lines 283-285). -/
def urlsOfResult (r : SearchResult) : List String :=
  match jsonParse (contentString r.content) with
  | some parsed => urlsOfParsed parsed
  | none => []

/-- The full `validCollectionUrls` list (route.ts lines 264-286). -/
def extractValidUrls (rs : List SearchResult) : List String :=
  match rs with
  | [] => []
  | r :: rest => urlsOfResult r ++ extractValidUrls rest

/-! ## The fixed instruction template (route.ts lines 37-233) -/

/-- The constant `BBS_SYSTEM_PROMPT`, verbatim from the source (split
into concatenated pieces so that facts about its characters reduce one
piece at a time). -/
def BBS_SYSTEM_PROMPT : String :=
  "You are The BBS Fitment Assistant, built for WheelPrice.\n\n  You are the BBS Wheel Fitment Assistant. Your job is to answer all wheel fitment and specification questions using ONLY the information contained in the vector dataset:" ++
  "\n\n      BBS_export_BMW_F8082_vector_docs_openai.json\n\n  This dataset contains natural-language descriptions and metadata for BBS wheels, including wheel type, size, diameter, offset (ET), bolt pattern, center bore (CB), fini" ++
  "shes, hardware kits, catalog codes, and compatible vehicles.\n\n  ------------------------------------------------------------\n  ## DATA STRUCTURE REFERENCE\n\n" ++
  "  Each wheel entry in the dataset contains:\n" ++
  "  - **content**: Natural language description including fitment information and compatible vehicles (e.g., \"BMW M3 (F80)\", \"BMW M4 (F82)\")\n" ++
  "  - **metadata.cl**: Catalog code with number prefix (e.g., \"01_FIR-B\", \"02_FI-B\", \"04_LM\", \"40_CHR\", \"48_CH\")\n" ++
  "    → When displaying to users, REMOVE the number prefix: \"01_FIR-B\" becomes \"FI-R\", \"04_LM\" becomes \"LM\"\n" ++
  "  - **metadata.wheel_type**: Specific wheel type identifier (e.g., \"FIR 138\", \"FI 030\", \"LM 001\")\n" ++
  "  - **metadata.wheel_size**: Width x diameter (e.g., \"19 x 10.5\", \"20 x 9.5\")\n  - **metadata.diameter**: Wheel diameter in inches (e.g., \"19\", \"20\")\n" ++
  "  - **metadata.et**: Offset in millimeters (e.g., \"35\", \"22\", \"28\")\n  - **metadata.bolt_pattern**: Lug pattern (e.g., \"5-120\")\n" ++
  "  - **metadata.cb**: Center bore in mm (e.g., \"72.5\") or \"PFS\" for hub-centric rings\n" ++
  "  - **metadata.available_finishes**: Finish codes (e.g., \"BS, DBK, GK, MBZ, PG\" or \"DBPK, DSPK\")\n" ++
  "  - **metadata.hardware_kit**: Required hardware (e.g., \"OE Bolts\", \"09.31.368\")\n\n  Available BBS wheel models in dataset:\n" ++
  "  FI-R, FIR, FI, RIS, LM, RIA, RID, LM-R, REV, CI-R, CC-R, CH-R, CH-RII, CH, RX-R, SR\n\n  ------------------------------------------------------------\n" ++
  "  ## UNDERSTANDING USER QUERIES\n\n  Users may ask about fitment in many different ways. ALL of these mean the same thing - \"what wheels fit my vehicle\":\n" ++
  "  - \"What fits my F82?\"\n  - \"What's the best setup for a F82?\"\n  - \"Show me options for my F82\"\n  - \"What works on my F82?\"\n  - \"What BBS wheels can I get for my F82?\"\n" ++
  "  - \"Recommend wheels for my F82\"\n\n  When you see questions about \"setup\", \"options\", \"what works\", \"recommendations\" for a vehicle:\n" ++
  "  → Interpret this as a fitment question and search for compatible wheels\n" ++
  "  → Do NOT say \"dataset does not contain that information\" unless there truly are NO wheels listed for that vehicle\n\n  **SUPPORTED VEHICLES AND CHASSIS CODES:**\n" ++
  "  The dataset contains wheels for these BMW vehicles (2015-2020):\n  - **F80**: BMW M3 (F80), including F80M and F80M with MCCB option\n" ++
  "  - **F82**: BMW M4 (F82), including F82M, F82M with MCCB option, and M4 GTS\n\n  Users may refer to these vehicles in various ways:\n  - Just chassis code: \"F80\", \"F82\"\n" ++
  "  - With M designation: \"F80M\", \"F82M\"\n  - Full name: \"BMW M3\", \"BMW M4\", \"M3\", \"M4\"\n  - Specific variants: \"M4 GTS\", \"F80 with MCCB\", \"F82 MCCB\"\n" ++
  "  - Year + model: \"2018 M3\", \"2019 F82\"\n\n  ALL of these should be recognized as valid fitment queries.\n" ++
  "  Search the content field for vehicle mentions like \"BMW M3 (F80)\" or \"BMW M4 (F82)\".\n\n  ------------------------------------------------------------\n" ++
  "  ## RESPONSE RULES\n\n  You must always base your answers ONLY on documents retrieved from this dataset.\n\n" ++
  "  If the dataset does not contain the requested information, you MUST say:\n" ++
  "      \"The BBS_export_BMW_F8082_vector_docs_openai.json dataset does not contain that information.\"\n\n" ++
  "  Never guess, infer, hallucinate, or use outside automotive knowledge.\n\n  ------------------------------------------------------------\n  ## HOW YOU MUST USE THE DATA\n\n" ++
  "  When responding to any user query:\n  1. Perform a vector search over the dataset.\n  2. Use **content** for semantic understanding and reading fitment descriptions.\n" ++
  "  3. Use **metadata** for filtering (wheel_size, diameter, et, bolt_pattern, cb, cl, etc.).\n  4. Only return details that exist explicitly in retrieved documents.\n\n" ++
  "  If no documents match, state clearly that the dataset does not include that information.\n\n  ------------------------------------------------------------\n" ++
  "  ## HOW TO ANSWER DIFFERENT TYPES OF QUESTIONS\n\n  ### 1. Vehicle Fitment Questions\n  Examples:\n  - “What wheels fit a 2018 BMW M3?”\n" ++
  "  - “Will these wheels fit my E39 528i Touring?”\n  - “What BBS options work for my F80?”\n\n  Your behavior:\n  - Search for documents whose content mentions that vehicle.\n" ++
  "  - Recognize ALL chassis code variations: F80, F82, F80M, F82M, M3, M4, M4 GTS, BMW M3, BMW M4\n  - Also recognize year variations like \"2018 M3\", \"2019 F82\", etc.\n" ++
  "  - Also recognize MCCB variants like \"F80 with MCCB\", \"F82M MCCB option\"\n  - Search the content field for \"BMW M3 (F80)\", \"BMW M4 (F82)\", \"M4 GTS\", etc.\n" ++
  "  - Return ONLY wheels explicitly listed as compatible.\n\n  **IMPORTANT - Conversational Recommendation Format:**\n  When multiple wheels fit (3+ options):\n" ++
  "  1. First, provide a brief summary: \"I found [X] BBS wheel options for your [vehicle]:\"\n" ++
  "  2. List ONLY the clean wheel model names (remove catalog number prefixes from metadata.cl):\n     - \"01_FIR-B\" → display as \"FI-R\"\n     - \"02_FI-B\" → display as \"FI\"\n" ++
  "     - \"04_LM\" → display as \"LM\"\n     - \"40_CHR\" → display as \"CH-R\"\n     - \"48_CH\" → display as \"CH\"\n" ++
  "     - Remove the number prefix and underscore, keep only the model name\n     - Example output: \"FI-R, FI, LM, CH-R, RIA, RID, LM-R, etc.\"\n" ++
  "  3. Add: \"Would you like details on any specific model? I can provide specs like offset, bolt pattern, finishes, and available sizes.\"\n" ++
  "  4. ONLY provide full specifications AFTER the user asks for details on a specific wheel\n\n  When providing details, include:\n" ++
  "  - Wheel type (from metadata.wheel_type, e.g., \"FIR 138\")\n  - Size (from metadata.wheel_size, e.g., \"19 x 10.5\")\n  - Offset/ET (from metadata.et, e.g., \"35\")\n" ++
  "  - Bolt pattern (from metadata.bolt_pattern, e.g., \"5-120\")\n  - Center bore (from metadata.cb, e.g., \"72.5\")\n" ++
  "  - Available finishes (from metadata.available_finishes - use the EXACT codes like \"BS, DBK, GK, MBZ, PG\")\n" ++
  "  - Hardware kit (from metadata.hardware_kit, e.g., \"OE Bolts\")\n  - Catalog code (from metadata.cl, e.g., \"01_FIR-B\")\n\n  When few wheels fit (1-2 options):\n" ++
  "  - You may provide basic details upfront (size, offset, bolt pattern)\n  - Keep it concise - avoid overwhelming with every specification\n\n" ++
  "  Exception - If user asks specifically for \"all details\" or \"full specs\":\n  - Then provide complete information for all wheels upfront\n\n" ++
  "  If no matching vehicles appear in the dataset:\n      \"The dataset does not list any wheels for that vehicle.\"\n\n  ### 2. Wheel Specification Questions\n  Examples:\n" ++
  "  - “What is the offset of catalog code 01_FIR-B?”\n  - “Show all 5x120 wheels.”\n  - “What is the center bore for this wheel?”\n\n  Your behavior:\n" ++
  "  - Retrieve entries using metadata filters.\n  - Return only the values found in metadata or content.\n" ++
  "  - If a value is missing, state that the dataset does not include it.\n\n  ### 3. Comparison Questions\n  Examples:\n  - “Compare 01_FIR-B vs 01_FIR-C.”\n" ++
  "  - “Which wheel has a lower offset?”\n\n  Your behavior:\n  - Retrieve both entries.\n  - Compare ONLY available metadata fields.\n" ++
  "  - If a spec is missing for either, say so clearly.\n\n  ### 4. Unknown or Unsupported Requests\n  If a user asks about:\n  - A vehicle not listed in the dataset\n" ++
  "  - A wheel spec that does not exist\n  - Any information that cannot be confirmed\n\n  You must respond:\n" ++
  "      \"The BBS_export_BMW_F8082_vector_docs_openai.json dataset does not contain that information.\"\n\n  ------------------------------------------------------------\n" ++
  "  ## DEALER RECOMMENDATION LOGIC\n\n  You may recommend wheel vendors ONLY when the user clearly states they are in a specific state.\n\n" ++
  "  ### If the user indicates they are in **California**, or mentions a California city/ZIP:\n  Respond with:\n" ++
  "      \"Customers in California can purchase BBS wheels from AR Motorwerkz:\n       https://armotorwerkz.com/\"\n\n" ++
  "  ### If the user indicates they are in **North Carolina**, or mentions a North Carolina city/ZIP:\n  Respond with:\n" ++
  "      \"Customers in North Carolina can purchase BBS wheels from eWheelWorks:\n       https://ewheelworks.us/\"\n\n  Rules:\n  - NEVER guess the user’s location.\n" ++
  "  - NEVER show dealer recommendations unless the user explicitly indicates CA or NC.\n  - Do NOT recommend any other vendors beyond those listed above.\n\n" ++
  "  ------------------------------------------------------------\n  ## OUTPUT FORMAT\n\n  Always:\n  - Provide a clear, concise answer.\n  - Use structured lists when helpful.\n" ++
  "  - NEVER reference dataset document IDs in the output.\n  - Do NOT mention embeddings, vector stores, retrieval mechanics, or internal operations.\n\n" ++
  "  ------------------------------------------------------------\n  ## PRIMARY MISSION\n\n  Be precise, retrieval-anchored, and trustworthy.\n" ++
  "  Your entire purpose is to deliver accurate BBS wheel fitment and specification information using ONLY the:\n\n      BBS_export_BMW_F8082_vector_docs_openai.json\n\n" ++
  "  dataset and nothing else."

/-! ## The request handler `POST` (route.ts lines 235-389) -/

/-- One part of a `UIMessage`: a `"text"` part carrying text, or a
`"file"` part carrying an optional declared media type. -/
structure Part where
  type : String
  text : String
  mediaType : Option String
deriving DecidableEq, Repr

/-- A conversation message. -/
structure UIMsg where
  id : String
  role : String
  parts : List Part
deriving DecidableEq, Repr

/-- The body of the request after `await req.json()` and the
destructuring of `messages`: `invalid` covers a body that is not valid
JSON or whose shape makes the destructuring or the later part accesses
throw before the `try` block is entered. -/
inductive ReqBody where
  | invalid
  | ok (messages : List UIMsg)

/-- The incoming request: its parsed body and its cancellation signal
(`req.signal`), identified by an opaque tag. -/
structure ChatRequest where
  body : ReqBody
  signal : Nat

/-- The outcome of the external `openaiClient.vectorStores.search` call:
its result list, or a thrown error. -/
inductive RetrievalOutcome where
  | ok (results : List SearchResult)
  | err

/-- `lastMessage.parts.filter(text).map(text).join(" ")`
(route.ts lines 240-243). -/
def userQueryOf (m : UIMsg) : String :=
  String.intercalate " " (((m.parts.filter (fun p => p.type = "text")).map Part.text))

/-- `lastMessage.parts.some(p => p.type === "file" &&
p.mediaType?.startsWith("image/"))` (route.ts lines 246-248). -/
def hasImagesOf (m : UIMsg) : Bool :=
  m.parts.any (fun p =>
    p.type = "file" &&
      (match p.mediaType with
       | some mt => strStartsWith mt "image/"
       | none => false))

/-- The system prompt assembled with the retrieved context
(route.ts lines 325-327): the fixed template, a blank line, and — when
the context text is truthy — the delimited context block. -/
def systemPromptWithContext (contextText : String) : String :=
  BBS_SYSTEM_PROMPT ++ "\n\n" ++
    (if contextText = "" then ""
     else "\n\n===== VECTOR DB DATA =====\n" ++ contextText ++ "\n===== END VECTOR DB DATA =====\n")

/-- The system `UIMessage` the handler builds around a prompt text
(route.ts lines 329-338 and 366-375). -/
def systemMessageOf (promptText : String) : UIMsg :=
  { id := "system", role := "system",
    parts := [{ type := "text", text := promptText, mediaType := none }] }

/-- One call to `streamText`: the model name, the message list passed to
`convertToModelMessages`, the sampling temperature and the cancellation
signal threaded through. -/
structure GenCall where
  model : String
  messages : List UIMsg
  temperature : ℚ
  signal : Nat
deriving DecidableEq, Repr

/-- The observable outcome of one `POST` invocation: whether and with
which query the vector-store search was called, the generation call the
response is streamed from (`none` when the handler throws before
generation), and the request's trusted URL list as captured by the
`onFinish` audit. -/
structure HandlerResult where
  retrievalCalled : Bool
  searchQuery : Option String
  genCall : Option GenCall
  trustedUrls : List String
deriving DecidableEq, Repr

/-- The `POST` handler (route.ts lines 235-389) as a function of the
parsed body and the retrieval outcome.

* An invalid body (`await req.json()` or the destructuring throws) and
  an empty `messages` list (`messages[messages.length - 1]` is
  `undefined`, so `.parts` throws) both fail before the `try` block:
  no search call, no generation call, no fallback.
* Inside the `try`, the search runs only when the trimmed query is
  truthy; a thrown search lands in the `catch`, which streams with the
  bare template on `gpt-4o`.
* Otherwise the primary call streams with the context-augmented prompt
  on `gpt-4o` when the last message has an image attachment and
  `gpt-4o-mini` when not. -/
def POST (req : ChatRequest) (retrieval : RetrievalOutcome) : HandlerResult :=
  match req.body with
  | .invalid =>
    { retrievalCalled := false, searchQuery := none, genCall := none, trustedUrls := [] }
  | .ok messages =>
    match messages.getLast? with
    | none =>
      { retrievalCalled := false, searchQuery := none, genCall := none, trustedUrls := [] }
    | some lastMessage =>
      let userQuery := userQueryOf lastMessage
      let hasImages := hasImagesOf lastMessage
      if strTrim userQuery = "" then
        { retrievalCalled := false, searchQuery := none,
          genCall := some
            { model := if hasImages then "gpt-4o" else "gpt-4o-mini",
              messages := systemMessageOf (systemPromptWithContext "") :: messages,
              temperature := 3 / 10,
              signal := req.signal },
          trustedUrls := [] }
      else
        match retrieval with
        | .err =>
          { retrievalCalled := true, searchQuery := some userQuery,
            genCall := some
              { model := "gpt-4o",
                messages := systemMessageOf BBS_SYSTEM_PROMPT :: messages,
                temperature := 3 / 10,
                signal := req.signal },
            trustedUrls := [] }
        | .ok results =>
          let validCollectionUrls := extractValidUrls results
          let contextText := contextTextOf results
          { retrievalCalled := true, searchQuery := some userQuery,
            genCall := some
              { model := if hasImages then "gpt-4o" else "gpt-4o-mini",
                messages := systemMessageOf (systemPromptWithContext contextText) :: messages,
                temperature := 3 / 10,
                signal := req.signal },
            trustedUrls := validCollectionUrls }

/-- The opening context delimiter: its absence from a prompt means the
context block is absent. -/
def ctxMarker : String := "===== VECTOR DB DATA ====="

/-! ## Concrete fixtures for the witnesses -/

/-- A final message with one text part. -/
def msgFindWheels : UIMsg :=
  { id := "1", role := "user",
    parts := [{ type := "text", text := "find wheels", mediaType := none }] }

/-- A final message with one image file part and no text part. -/
def msgImageOnly : UIMsg :=
  { id := "2", role := "user",
    parts := [{ type := "file", text := "", mediaType := some "image/png" }] }

/-- A final message with one text part "find wheels" and one image file
part. -/
def msgTextImage : UIMsg :=
  { id := "3", role := "user",
    parts := [{ type := "text", text := "find wheels", mediaType := none },
              { type := "file", text := "", mediaType := some "image/png" }] }

/-- A search result whose content is a JSON object with a
`collection_url`. -/
def resWithUrl : SearchResult :=
  { content := .str "\x7b\"collection_url\":\"https://BBSwheels.com/collections/lm\"\x7d",
    file_name := some "BBS_wheels.json", filename := none }

end BBSFitment

/-! ## Helper lemmas and the claims -/

namespace BBSFitment

theorem mem_of_isPrefixOf {a : Char} : ∀ {n l : List Char}, n.isPrefixOf l = true → a ∈ n → a ∈ l
  | [], _, _, ha => absurd ha (List.not_mem_nil a)
  | _ :: _, [], h, _ => by simp [List.isPrefixOf] at h
  | x :: xs, y :: ys, h, ha => by
    simp only [List.isPrefixOf, Bool.and_eq_true, beq_iff_eq] at h
    rcases List.mem_cons.mp ha with h1 | h2
    · subst h1; rw [h.1]; exact List.mem_cons_self _ _
    · exact List.mem_cons_of_mem _ (mem_of_isPrefixOf h.2 h2)

theorem mem_of_listContainsSub {a : Char} : ∀ {hay needle : List Char},
    listContainsSub hay needle = true → a ∈ needle → a ∈ hay
  | [], n, h, ha => by
    simp only [listContainsSub, List.isEmpty_iff] at h
    subst h; exact absurd ha (List.not_mem_nil a)
  | c :: t, n, h, ha => by
    simp only [listContainsSub, Bool.or_eq_true] at h
    rcases h with h | h
    · exact mem_of_isPrefixOf h ha
    · exact List.mem_cons_of_mem _ (mem_of_listContainsSub h ha)

theorem strIncludes_false_of_missing_char (hay needle : String) (c : Char)
    (hc : c ∈ needle.data) (hn : c ∉ hay.data) : strIncludes hay needle = false := by
  cases h : strIncludes hay needle with
  | false => rfl
  | true => exact absurd (mem_of_listContainsSub h hc) hn

theorem toLower_ne_B (c : Char) : c.toLower ≠ 'B' := by
  simp only [Char.toLower]
  split
  · rename_i h
    intro he
    have hv : (c.toNat + 32).isValidChar := by left; omega
    have h2 : (Char.ofNat (c.toNat + 32)).toNat = c.toNat + 32 := by
      simp [Char.ofNat, hv]; rfl
    rw [he] at h2
    have h3 : ('B').toNat = 66 := by decide
    omega
  · rename_i h
    intro he; subst he
    exact h (by decide)

set_option maxRecDepth 4000 in
theorem no_eq_char_in_prompt : '=' ∉ BBS_SYSTEM_PROMPT.data := by
  have h : BBS_SYSTEM_PROMPT.data.all (fun c => !(c = '=')) = true := by
    simp only [BBS_SYSTEM_PROMPT, String.data_append, List.all_append]
    decide
  intro hm
  have h2 := List.all_eq_true.mp h '=' hm
  simp at h2

theorem marker_not_in_prompt : strIncludes BBS_SYSTEM_PROMPT ctxMarker = false :=
  strIncludes_false_of_missing_char _ _ '=' (by decide) no_eq_char_in_prompt

theorem marker_not_in_plain_prompt :
    strIncludes (systemPromptWithContext "") ctxMarker = false := by
  apply strIncludes_false_of_missing_char _ _ '=' (by decide)
  intro hm
  simp only [systemPromptWithContext, if_pos rfl, String.data_append, List.mem_append] at hm
  rcases hm with (hm | hm) | hm
  · exact no_eq_char_in_prompt hm
  · simp at hm
  · simp at hm

theorem isPrimarySource_eq_false (r : SearchResult) : isPrimarySource r = false := by
  apply strIncludes_false_of_missing_char _ _ 'B' (by decide)
  intro hm
  simp only [strToLower] at hm
  obtain ⟨c, -, hc⟩ := List.mem_map.mp hm
  exact toLower_ne_B c hc

theorem partitionResults_no_primary (rs : List SearchResult) :
    partitionResults rs = ([], rs.map (fun r => contentString r.content)) := by
  suffices h : ∀ acc : List String × List String,
      rs.foldl (fun acc r =>
        let cs := contentString r.content
        if isPrimarySource r then (acc.1 ++ [cs], acc.2) else (acc.1, acc.2 ++ [cs])) acc
      = (acc.1, acc.2 ++ rs.map (fun r => contentString r.content)) by
    simpa [partitionResults] using h ([], [])
  induction rs with
  | nil => intro acc; simp
  | cons r rest ih =>
    intro acc
    simp [isPrimarySource_eq_false r, ih]

/-- C1 (code bug): the primary-source partition is dead code: the handler
lowercases the file name and then searches it for the mixed-case needle
"BBS_wheels.json", which no lowercased string can contain, so no result is
ever classified as primary and the assembled context keeps the original
order; in particular for [other, primary] the primary content comes last,
not first. -/
theorem claim_C1 :
    isPrimarySource { content := .str "PRIMARY", file_name := some "BBS_wheels.json", filename := none } = false
  ∧ contextTextOf
      [ { content := .str "OTHER", file_name := some "other.json", filename := none },
        { content := .str "PRIMARY", file_name := some "BBS_wheels.json", filename := none } ]
      = "OTHER\n\n---\n\nPRIMARY"
  ∧ ∀ r : SearchResult, isPrimarySource r = false :=
  ⟨isPrimarySource_eq_false _, by decide, isPrimarySource_eq_false⟩

/-- C2: the post-generation URL audit never modifies the response text,
and a response containing an untrusted sensitive-domain URL is returned
unchanged while that URL is recorded as warned about. -/
theorem claim_C2 :
    (∀ (text : String) (validUrls : List String),
      (validateAndFilterUrls text validUrls).text = text)
  ∧ (validateAndFilterUrls "Visit https://BBSwheels.com/evil today" []).text
      = "Visit https://BBSwheels.com/evil today"
  ∧ "https://BBSwheels.com/evil"
      ∈ (validateAndFilterUrls "Visit https://BBSwheels.com/evil today" []).warnedUrls :=
  ⟨fun _ _ => rfl, rfl, by decide⟩

/-- C8: a request whose body is not valid JSON or lacks the expected shape
fails before any external call: no retrieval call, no generation call, no
fallback. -/
theorem claim_C8 (req : ChatRequest) (retrieval : RetrievalOutcome)
    (h : req.body = .invalid) :
    POST req retrieval =
      { retrievalCalled := false, searchQuery := none, genCall := none, trustedUrls := [] } := by
  obtain ⟨b, s⟩ := req
  cases h
  rfl

/-- Witness for C8 at a concrete invalid request. -/
theorem witness_C8 :
    POST { body := .invalid, signal := 0 } (.ok []) =
      { retrievalCalled := false, searchQuery := none, genCall := none, trustedUrls := [] } :=
  claim_C8 _ _ rfl

/-- C9: a parsed body with an empty messages list fails before the try
block (reading the parts of an undefined last message): no retrieval, no
generation, no fallback. -/
theorem claim_C9 (req : ChatRequest) (retrieval : RetrievalOutcome)
    (h : req.body = .ok []) :
    POST req retrieval =
      { retrievalCalled := false, searchQuery := none, genCall := none, trustedUrls := [] } := by
  obtain ⟨b, s⟩ := req
  cases h
  rfl

/-- Witness for C9 at a concrete empty-messages request. -/
theorem witness_C9 :
    POST { body := .ok [], signal := 5 } .err =
      { retrievalCalled := false, searchQuery := none, genCall := none, trustedUrls := [] } :=
  claim_C9 _ _ rfl

/-- C3: when the retrieval call throws (and the query was non-empty, so
retrieval was attempted), the handler still produces a generation call:
the bare instruction template with no context markers, model gpt-4o
unconditionally, temperature 0.3 and the request's own cancellation
signal. -/
theorem claim_C3 (req : ChatRequest) (msgs : List UIMsg) (last : UIMsg)
    (hbody : req.body = .ok msgs) (hlast : msgs.getLast? = some last)
    (hq : ¬ strTrim (userQueryOf last) = "") :
    POST req .err =
      { retrievalCalled := true, searchQuery := some (userQueryOf last),
        genCall := some
          { model := "gpt-4o",
            messages := systemMessageOf BBS_SYSTEM_PROMPT :: msgs,
            temperature := 3 / 10, signal := req.signal },
        trustedUrls := [] }
    ∧ strIncludes BBS_SYSTEM_PROMPT ctxMarker = false := by
  obtain ⟨b, sig⟩ := req
  cases hbody
  refine ⟨?_, marker_not_in_prompt⟩
  simp [POST, hlast, hq]

/-- Witness for C3 at a concrete request with query "find wheels". -/
theorem witness_C3 :
    POST { body := .ok [{ id := "1", role := "user", parts := [{ type := "text", text := "find wheels", mediaType := none }] }], signal := 7 } .err =
      { retrievalCalled := true,
        searchQuery := some (userQueryOf { id := "1", role := "user", parts := [{ type := "text", text := "find wheels", mediaType := none }] }),
        genCall := some
          { model := "gpt-4o",
            messages := systemMessageOf BBS_SYSTEM_PROMPT :: [{ id := "1", role := "user", parts := [{ type := "text", text := "find wheels", mediaType := none }] }],
            temperature := 3 / 10, signal := 7 },
        trustedUrls := [] }
    ∧ strIncludes BBS_SYSTEM_PROMPT ctxMarker = false :=
  claim_C3 _ _ _ rfl rfl (by decide)

/-- C4: the search query is exactly the text parts of the final message
joined by a single space; with no text parts, no retrieval call is issued
and the assembled system prompt carries no context markers. -/
theorem claim_C4 (req : ChatRequest) (msgs : List UIMsg) (last : UIMsg)
    (retrieval : RetrievalOutcome)
    (hbody : req.body = .ok msgs) (hlast : msgs.getLast? = some last) :
    ((POST req retrieval).retrievalCalled = true →
      (POST req retrieval).searchQuery =
        some (String.intercalate " " ((last.parts.filter (fun p => p.type = "text")).map Part.text)))
  ∧ ((last.parts.filter (fun p => p.type = "text")) = [] →
      (POST req retrieval).retrievalCalled = false ∧
      (POST req retrieval).searchQuery = none ∧
      (POST req retrieval).genCall =
        some { model := if hasImagesOf last then "gpt-4o" else "gpt-4o-mini",
               messages := systemMessageOf (systemPromptWithContext "") :: msgs,
               temperature := 3 / 10, signal := req.signal } ∧
      strIncludes (systemPromptWithContext "") ctxMarker = false) := by
  obtain ⟨b, sig⟩ := req
  cases hbody
  constructor
  · intro hcalled
    by_cases hq : strTrim (userQueryOf last) = ""
    · simp [POST, hlast, hq] at hcalled
    · have hu : userQueryOf last =
          String.intercalate " " ((last.parts.filter (fun p => p.type = "text")).map Part.text) := rfl
      rw [← hu]
      cases retrieval <;> simp [POST, hlast, hq]
  · intro hfilter
    have hq : strTrim (userQueryOf last) = "" := by
      simp [userQueryOf, hfilter]
      decide
    refine ⟨?_, ?_, ?_, marker_not_in_plain_prompt⟩ <;>
      simp [POST, hlast, hq]

/-- Witness for C4 at a request whose final message has one file part and
no text part. -/
theorem witness_C4 :
    (POST { body := .ok [msgImageOnly], signal := 9 } (.ok [])).retrievalCalled = false ∧
    (POST { body := .ok [msgImageOnly], signal := 9 } (.ok [])).searchQuery = none ∧
    (POST { body := .ok [msgImageOnly], signal := 9 } (.ok [])).genCall =
      some { model := if hasImagesOf msgImageOnly then "gpt-4o" else "gpt-4o-mini",
             messages := systemMessageOf (systemPromptWithContext "") :: [msgImageOnly],
             temperature := 3 / 10, signal := 9 } ∧
    strIncludes (systemPromptWithContext "") ctxMarker = false := by
  have h := claim_C4 { body := .ok [msgImageOnly], signal := 9 } [msgImageOnly] msgImageOnly
    (.ok []) rfl rfl
  exact h.2 (by decide)

/-- Unfolding of the media-type test on an optional declared type. -/
theorem mediaTypeCheck_iff (o : Option String) :
    (match o with
     | some mt => strStartsWith mt "image/"
     | none => false) = true ↔
      ∃ mt, o = some mt ∧ strStartsWith mt "image/" = true := by
  cases o <;> simp

/-- C5: the visual flag holds exactly when the final message has a file
part whose declared media type starts with "image/"; on the primary path
the flag selects gpt-4o over gpt-4o-mini, and when the flag holds the
handler uses gpt-4o whether retrieval succeeds or throws. -/
theorem claim_C5 (req : ChatRequest) (msgs : List UIMsg) (last : UIMsg)
    (results : List SearchResult)
    (hbody : req.body = .ok msgs) (hlast : msgs.getLast? = some last) :
    (hasImagesOf last = true ↔
      ∃ p ∈ last.parts, p.type = "file" ∧
        ∃ mt, p.mediaType = some mt ∧ strStartsWith mt "image/" = true)
  ∧ (∃ g, (POST req (.ok results)).genCall = some g ∧
      g.model = if hasImagesOf last then "gpt-4o" else "gpt-4o-mini")
  ∧ (hasImagesOf last = true →
      ∃ g, (POST req .err).genCall = some g ∧ g.model = "gpt-4o") := by
  obtain ⟨b, sig⟩ := req
  cases hbody
  refine ⟨?_, ?_, ?_⟩
  · simp [hasImagesOf, List.any_eq_true, mediaTypeCheck_iff]
  · by_cases hq : strTrim (userQueryOf last) = "" <;>
      simp [POST, hlast, hq]
  · intro himg
    by_cases hq : strTrim (userQueryOf last) = "" <;>
      simp [POST, hlast, hq, himg]

/-- Witness for C5 at a final message with one text part "find wheels"
and one image file part, with retrieval succeeding and throwing. -/
theorem witness_C5 :
    hasImagesOf msgTextImage = true
  ∧ (∃ g, (POST { body := .ok [msgTextImage], signal := 3 } (.ok [])).genCall = some g ∧
      g.model = "gpt-4o")
  ∧ (∃ g, (POST { body := .ok [msgTextImage], signal := 3 } .err).genCall = some g ∧
      g.model = "gpt-4o") := by
  have himg : hasImagesOf msgTextImage = true := by decide
  have h := claim_C5 { body := .ok [msgTextImage], signal := 3 } [msgTextImage] msgTextImage
    [] rfl rfl
  refine ⟨himg, ?_, h.2.2 himg⟩
  obtain ⟨g, hg, hm⟩ := h.2.1
  rw [himg] at hm
  exact ⟨g, hg, by simpa using hm⟩

/-- A URL one result contributes appears in the request's full extracted
list. -/
theorem mem_extract_of_mem {results : List SearchResult} {r : SearchResult}
    (hr : r ∈ results) {u : String} (hu : u ∈ urlsOfResult r) :
    u ∈ extractValidUrls results := by
  induction results with
  | nil => cases hr
  | cons a rest ih =>
    rcases List.mem_cons.mp hr with h | h
    · subst h
      simp only [extractValidUrls, List.mem_append]
      exact Or.inl hu
    · simp only [extractValidUrls, List.mem_append]
      exact Or.inr (ih h)

/-- C6: every truthy collection_url carried by a result's successfully
parsed content — on the parsed object itself, or on any element of a
parsed sequence — lands in the trusted URL list; a result whose content
does not parse contributes nothing. -/
theorem claim_C6 :
    (∀ (results : List SearchResult) (r : SearchResult) (v : Json) (u : String),
      r ∈ results → jsonParse (contentString r.content) = some v →
      v.getField "collection_url" = some (.str u) → ¬ u = "" →
      u ∈ extractValidUrls results)
  ∧ (∀ (results : List SearchResult) (r : SearchResult) (items : List Json)
      (it : Json) (u : String),
      r ∈ results → jsonParse (contentString r.content) = some (.arr items) →
      it ∈ items → it.getField "collection_url" = some (.str u) → ¬ u = "" →
      u ∈ extractValidUrls results)
  ∧ (∀ r : SearchResult, jsonParse (contentString r.content) = none →
      urlsOfResult r = []) := by
  refine ⟨?_, ?_, ?_⟩
  · intro results r v u hr hp hf hu
    apply mem_extract_of_mem hr
    simp only [urlsOfResult, hp, urlsOfParsed, hf, pushIfUrl, List.mem_append]
    left
    simp [hu]
  · intro results r items it u hr hp hit hf hu
    apply mem_extract_of_mem hr
    simp only [urlsOfResult, hp, urlsOfParsed, List.mem_append]
    right
    simp only [List.mem_flatten]
    refine ⟨pushIfUrl (it.getField "collection_url"), List.mem_map_of_mem _ hit, ?_⟩
    simp [hf, pushIfUrl, hu]
  · intro r hp
    simp [urlsOfResult, hp]

/-- Witness for C6: a concrete result whose content is a JSON object with
a collection_url, whose URL is extracted. -/
theorem witness_C6 :
    "https://BBSwheels.com/collections/lm" ∈ extractValidUrls [resWithUrl] :=
  claim_C6.1 [resWithUrl] resWithUrl
    (.obj [("collection_url", .str "https://BBSwheels.com/collections/lm")])
    "https://BBSwheels.com/collections/lm"
    (List.Mem.head _) rfl rfl (by decide)

/-- C7: for a URL-shaped substring of the generated text on the sensitive
domain, a warning is emitted exactly when the URL neither equals a
trusted entry up to case nor extends a trusted entry as a prefix. -/
theorem claim_C7 (text : String) (validUrls : List String) (url : String)
    (hfound : url ∈ foundUrlsIn text)
    (hdom : strIncludes url "BBSwheels.com" = true) :
    url ∈ (validateAndFilterUrls text validUrls).warnedUrls ↔
      ¬ ∃ v ∈ validUrls, strToLower v = strToLower url ∨ strStartsWith url v = true := by
  simp only [validateAndFilterUrls, List.mem_filter, hfound, true_and, hdom,
    Bool.true_and, Bool.not_eq_true', isValidUrl, List.any_eq_false,
    Bool.or_eq_false_iff]
  constructor
  · intro h hex
    obtain ⟨v, hv, hcond⟩ := hex
    have h2 := h v hv
    rcases hcond with hc | hc
    · rw [hc] at h2
      simp at h2
    · rw [hc] at h2
      simp at h2
  · intro h v hv hor
    rw [Bool.or_eq_true] at hor
    rcases hor with hb | hb
    · exact h ⟨v, hv, Or.inl (by simpa using hb)⟩
    · exact h ⟨v, hv, Or.inr hb⟩

/-- Witness for C7: an untrusted sensitive-domain URL against a one-entry
trusted list is warned about. -/
theorem witness_C7 :
    ("https://BBSwheels.com/evil" ∈ foundUrlsIn "see https://BBSwheels.com/evil" ∧
     strIncludes "https://BBSwheels.com/evil" "BBSwheels.com" = true)
  ∧ ("https://BBSwheels.com/evil"
      ∈ (validateAndFilterUrls "see https://BBSwheels.com/evil"
          ["https://BBSwheels.com/collections/lm"]).warnedUrls ↔
     ¬ ∃ v ∈ ["https://BBSwheels.com/collections/lm"],
        strToLower v = strToLower "https://BBSwheels.com/evil" ∨
        strStartsWith "https://BBSwheels.com/evil" v = true) :=
  ⟨⟨by decide, by decide⟩, claim_C7 _ _ _ (by decide) (by decide)⟩

/-- C10: the sensitive-domain test is case-sensitive: a URL that does not
contain the exact string "BBSwheels.com" — even one containing the domain
in another casing — is never warned about. -/
theorem claim_C10 (text : String) (validUrls : List String) (url : String)
    (_hfound : url ∈ foundUrlsIn text)
    (_hcase : strIncludes (strToLower url) "bbswheels.com" = true)
    (hnot : strIncludes url "BBSwheels.com" = false) :
    url ∉ (validateAndFilterUrls text validUrls).warnedUrls := by
  intro hmem
  simp only [validateAndFilterUrls, List.mem_filter, hnot, Bool.false_and,
    Bool.and_eq_true] at hmem
  exact absurd hmem.2 (by simp)

/-- Witness for C10: a lower-cased sensitive-domain URL with an empty
trusted list produces no warning. -/
theorem witness_C10 :
    ("https://bbswheels.com/evil" ∈ foundUrlsIn "go https://bbswheels.com/evil now" ∧
     strIncludes (strToLower "https://bbswheels.com/evil") "bbswheels.com" = true ∧
     strIncludes "https://bbswheels.com/evil" "BBSwheels.com" = false)
  ∧ "https://bbswheels.com/evil"
      ∉ (validateAndFilterUrls "go https://bbswheels.com/evil now" []).warnedUrls :=
  ⟨⟨by decide, by decide, by decide⟩, claim_C10 _ _ _ (by decide) (by decide) (by decide)⟩

end BBSFitment
